import Mathlib

/-!
Shallow embedding of the YouTube data-pipeline repository
(`src/functions.py`, driven by `src/data_pipeline.py`).

Tables are modelled as lists of row structures; the external collaborators
(the search HTTP API, the transcript service, the datetime cast of the table
engine and the sentence-embedding model) are parameters of the stage
functions, matching the spec's black-box contracts.
-/

namespace DataPipeline

/-- One element of `items[]` in a search-API response page
(`id.kind`, `id.videoId`, `snippet.publishedAt`, `snippet.title`). -/
structure Item where
  idKind : String
  videoId : String
  publishedAt : String
  title : String
deriving DecidableEq, Repr

/-- A row of the video-identity table `data/video-ids.parquet`. -/
structure VideoRecord where
  video_id : String
  datetime : String
  title : String
deriving DecidableEq, Repr

/-- The dict built for one raw item in `getVideoRecords`
(`video_id`, `datetime`, `title` keys, in that order). -/
def mkVideoRecord (raw_item : Item) : VideoRecord :=
  { video_id := raw_item.videoId
    datetime := raw_item.publishedAt
    title := raw_item.title }

/-- Embeds `getVideoRecords` (src/functions.py:8-31): walks `items[]`,
skips any item whose `id.kind` is not `"youtube#video"` (`continue`),
and appends a record for each video item. -/
def getVideoRecords (items : List Item) : List VideoRecord :=
  items.foldl
    (fun video_record_list raw_item =>
      if raw_item.idKind ≠ "youtube#video" then video_record_list
      else video_record_list ++ [mkVideoRecord raw_item])
    []

/-- One response page of the mocked search API: its `items[]` and its
optional `nextPageToken`. -/
structure Page where
  items : List Item
  nextPageToken : Option String
deriving DecidableEq, Repr

/-- Embeds the pagination loop of `getVideoIDs` (src/functions.py:51-63).
The mocked API serves the pages of `pages` one per request, in order.
Each iteration of `while page_token != 0` appends the page's video records
to the accumulator; if the response lacks a `nextPageToken` the token is
set to `0`, which exits the loop, otherwise the loop requests the next
page.  `fuel` bounds the number of iterations we are willing to run:
`none` means the loop did not finish within `fuel` requests (or asked the
mock for a page beyond the finite sequence it returns). -/
def runLister : Nat → List Page → List VideoRecord → Option (List VideoRecord)
  | 0, _, _ => none
  | _ + 1, [], _ => none
  | fuel + 1, page :: rest, video_record_list =>
    let video_record_list := video_record_list ++ getVideoRecords page.items
    match page.nextPageToken with
    | none => some video_record_list
    | some _ => runLister fuel rest video_record_list

/-- One caption fragment returned by the transcript service
(the `{text, ...}` dict; only `text` is read). -/
structure Fragment where
  text : String
deriving DecidableEq, Repr

/-- Python's `sep.join` on a list of strings. -/
def strJoin (sep : String) : List String → String
  | [] => ""
  | [s] => s
  | s :: rest => s ++ sep ++ strJoin sep rest

/-- Embeds `extractTranscriptText` (src/functions.py:69-78):
`' '.join([transcript[i]['text'] for i in range(len(transcript))])`. -/
def extractTranscriptText (transcript : List Fragment) : String :=
  strJoin " " (transcript.map (fun fragment => fragment.text))

/-- A row of the transcript table `data/video-transcripts.parquet`
as written by the Transcript Fetcher. -/
structure TranscriptRow where
  video_id : String
  datetime : String
  title : String
  transcript : String
deriving DecidableEq, Repr

/-- The `try/except` body of `getVideoTranscripts` (src/functions.py:97-102)
for one video: call the transcript service; on success extract the caption
text, on any error whatsoever record the sentinel `"n/a"`. -/
def fetchTranscriptText {ε : Type} (get_transcript : String → Except ε (List Fragment))
    (video_id : String) : String :=
  match get_transcript video_id with
  | Except.ok transcript => extractTranscriptText transcript
  | Except.error _ => "n/a"

/-- Embeds `getVideoTranscripts` (src/functions.py:81-110): for each row of
the identity table, in order, fetch a transcript (or the sentinel), and
attach the resulting column positionally with `with_columns`. -/
def getVideoTranscripts {ε : Type} (get_transcript : String → Except ε (List Fragment))
    (df : List VideoRecord) : List TranscriptRow :=
  df.map (fun row =>
    { video_id := row.video_id
      datetime := row.datetime
      title := row.title
      transcript := fetchTranscriptText get_transcript row.video_id })

/-- `special_strings` of `handleSpecialStrings` (src/functions.py:121). -/
def special_strings : List String := ["&#39;", "&amp;", "sha "]

/-- `special_string_replacements` of `handleSpecialStrings` (src/functions.py:122). -/
def special_string_replacements : List String := ["'", "&", "Shaw "]

/-- Replace the leftmost occurrence of `pat` (a plain character sequence)
in a character list by `rep`; the list is returned unchanged when `pat`
does not occur.  This is the behaviour of polars `Series.str.replace`
(default `n = 1`: first match only) on the patterns of `special_strings`,
none of which contains a regex metacharacter. -/
def replaceFirstAux (pat rep : List Char) : List Char → List Char
  | [] => []
  | c :: cs =>
    if pat.isPrefixOf (c :: cs) then rep ++ (c :: cs).drop pat.length
    else c :: replaceFirstAux pat rep cs

/-- `s.str.replace(pat, rep)` on one cell: leftmost-first-occurrence
substring replacement. -/
def strReplaceFirst (s pat rep : String) : String :=
  { data := replaceFirstAux pat.data rep.data s.data }

/-- The replacement applied at loop index `i` of `handleSpecialStrings`:
`special_strings[i]` replaced by `special_string_replacements[i]`. -/
def applyReplacement (i : Nat) (s : String) : String :=
  strReplaceFirst s (special_strings.getD i "") (special_string_replacements.getD i "")

/-- Embeds `handleSpecialStrings` (src/functions.py:113-128): for each
index `i` in `range(len(special_strings))`, first rewrite the `title`
column, then the `transcript` column, with the `i`-th replacement. -/
def handleSpecialStrings (df : List TranscriptRow) : List TranscriptRow :=
  (List.range special_strings.length).foldl
    (fun df i =>
      let df := df.map (fun row => { row with title := applyReplacement i row.title })
      df.map (fun row => { row with transcript := applyReplacement i row.transcript }))
    df

/-- All three replacements applied, in list order, to one text cell. -/
def cleanText (s : String) : String :=
  applyReplacement 2 (applyReplacement 1 (applyReplacement 0 s))

/-- Both text fields of one row cleaned. -/
def cleanRow (row : TranscriptRow) : TranscriptRow :=
  { row with title := cleanText row.title, transcript := cleanText row.transcript }

/-- Does `pat` occur as a contiguous character sequence of `l`?
(For the non-empty patterns of `special_strings`.) -/
def containsPat (pat : List Char) : List Char → Bool
  | [] => false
  | c :: cs => pat.isPrefixOf (c :: cs) || containsPat pat cs

/-- Does the pattern string `pat` occur as a substring of `s`? -/
def strContainsPat (s pat : String) : Bool :=
  containsPat pat.data s.data

/-- A row is clean when neither text field contains any of the special
strings. -/
def rowClean (row : TranscriptRow) : Prop :=
  ∀ pat ∈ special_strings,
    strContainsPat row.title pat = false ∧ strContainsPat row.transcript pat = false

instance (row : TranscriptRow) : Decidable (rowClean row) := by
  unfold rowClean; infer_instance

/-- A row of the transformed transcript table after `setDatatypes`: the
`datetime` column is cast to the engine's datetime type (modelled as
`Option Nat`, `none` being the engine's null on cast failure). -/
structure TransformedRow where
  video_id : String
  datetime : Option Nat
  title : String
  transcript : String
deriving DecidableEq, Repr

/-- Embeds `setDatatypes` (src/functions.py:130-141): cast the `datetime`
column with the table engine's string-to-datetime cast `cast`. -/
def setDatatypes (cast : String → Option Nat) (df : List TranscriptRow) :
    List TransformedRow :=
  df.map (fun row =>
    { video_id := row.video_id
      datetime := cast row.datetime
      title := row.title
      transcript := row.transcript })

/-- Embeds `transformData` (src/functions.py:144-158):
`handleSpecialStrings` then `setDatatypes`. -/
def transformData (cast : String → Option Nat) (df : List TranscriptRow) :
    List TransformedRow :=
  setDatatypes cast (handleSpecialStrings df)

/-- A 2D numeric array as returned by `model.encode`: its rows and its
second shape component (`shape[1]`, the embedding width, carried by the
array even when there are zero rows). -/
structure NDArr where
  rows : List (List Float)
  width : Nat

/-- The final artifact `data/video-index.parquet`: the transformed rows
plus, per embedded field and vector dimension, one named scalar column. -/
structure IndexDF where
  rows : List TransformedRow
  embCols : List (String × List Float)

/-- `column_name_list` of `createTextEmbeddings` (src/functions.py:173). -/
def column_name_list : List String := ["title", "transcript"]

/-- `df[column_name].to_list()` for the two embedded columns. -/
def getColumn (df : List TransformedRow) (column_name : String) : List String :=
  df.map (fun row => if column_name = "title" then row.title else row.transcript)

/-- The dataframe `df_embedding` built from one embedding array
(src/functions.py:180-181): for each dimension index `i` below
`embedding_arr.shape[1]`, a column named `<column_name>_embedding-<i>`
holding the `i`-th component of every row. -/
def embColumns (column_name : String) (embedding_arr : NDArr) :
    List (String × List Float) :=
  (List.range embedding_arr.width).map
    (fun i =>
      (column_name ++ "_embedding-" ++ toString i,
       embedding_arr.rows.map (fun row => row.getD i 0)))

/-- Embeds `createTextEmbeddings` (src/functions.py:160-187): for
`title` then `transcript`, encode the column and horizontally concat the
per-dimension columns onto the table (`pl.concat(..., how='horizontal')`
leaves the existing rows in place). -/
def createTextEmbeddings (encode : List String → NDArr) (df : List TransformedRow) :
    IndexDF :=
  column_name_list.foldl
    (fun acc column_name =>
      let embedding_arr := encode (getColumn df column_name)
      { acc with embCols := acc.embCols ++ embColumns column_name embedding_arr })
    { rows := df, embCols := [] }

/-- The composition of stages 2-4 of the pipeline driver
(src/data_pipeline.py), from the video-identity table to the final
index table. -/
def pipelineIndex {ε : Type} (get_transcript : String → Except ε (List Fragment))
    (cast : String → Option Nat) (encode : List String → NDArr)
    (df : List VideoRecord) : IndexDF :=
  createTextEmbeddings encode (transformData cast (getVideoTranscripts get_transcript df))

/-- The tail part of a separator join: `sep ++ a₁ ++ sep ++ a₂ ++ ...`. -/
def joinTail (sep : String) : List String → String
  | [] => ""
  | a :: as => sep ++ a ++ joinTail sep as

/-- The records of all video items across a page list, in page order. -/
def pagesRecords (pages : List Page) : List VideoRecord :=
  pages.flatMap (fun page => getVideoRecords page.items)

/-- The `video_id` column the lister would draw from a page list. -/
def allVideoIds (pages : List Page) : List String :=
  (pagesRecords pages).map (fun record => record.video_id)

/-- A mocked single-page API response holding two video items that share
the empty `videoId`. -/
def duplicateIdPage : List Page :=
  [{ items := [{ idKind := "youtube#video", videoId := "",
                 publishedAt := "2024-01-01", title := "t1" },
               { idKind := "youtube#video", videoId := "",
                 publishedAt := "2024-01-02", title := "t2" }],
     nextPageToken := none }]

/-- The video-identity table the lister writes for `duplicateIdPage`. -/
def duplicateIdTable : List VideoRecord :=
  [{ video_id := "", datetime := "2024-01-01", title := "t1" },
   { video_id := "", datetime := "2024-01-02", title := "t2" }]

/-! ## Helper lemmas -/

theorem intercalate_go_eq (s : String) :
    ∀ (as : List String) (acc : String),
      String.intercalate.go acc s as = acc ++ joinTail s as
  | [], acc => by simp [String.intercalate.go, joinTail]
  | a :: as, acc => by
    simp only [String.intercalate.go, joinTail, intercalate_go_eq s as]
    simp [String.append_assoc]

theorem strJoin_eq_intercalate (s : String) :
    ∀ l : List String, strJoin s l = String.intercalate s l
  | [] => rfl
  | [a] => by simp [strJoin, String.intercalate, intercalate_go_eq, joinTail]
  | a :: b :: t => by
    have ih := strJoin_eq_intercalate s (b :: t)
    simp only [strJoin, ih, String.intercalate, intercalate_go_eq, joinTail]
    simp [String.append_assoc]

theorem getVideoTranscripts_length {ε : Type}
    (get_transcript : String → Except ε (List Fragment)) (df : List VideoRecord) :
    (getVideoTranscripts get_transcript df).length = df.length := by
  simp [getVideoTranscripts]

theorem handleSpecialStrings_eq_map (df : List TranscriptRow) :
    handleSpecialStrings df = df.map cleanRow := by
  simp only [handleSpecialStrings, special_strings, List.length_cons, List.length_nil,
    Nat.zero_add, List.range_succ, List.range_zero, List.nil_append, List.foldl_append,
    List.foldl_cons, List.foldl_nil, List.map_map]
  exact List.map_congr_left (fun r _ => rfl)

theorem replaceFirstAux_of_not_contains (pat rep : List Char) :
    ∀ l : List Char, containsPat pat l = false → replaceFirstAux pat rep l = l
  | [], _ => rfl
  | c :: cs, h => by
    simp only [containsPat, Bool.or_eq_false_iff] at h
    simp only [replaceFirstAux, h.1, Bool.false_eq_true, if_neg, ite_false,
      replaceFirstAux_of_not_contains pat rep cs h.2]

theorem strReplaceFirst_of_not_contains (s pat rep : String)
    (h : strContainsPat s pat = false) : strReplaceFirst s pat rep = s := by
  unfold strContainsPat at h
  unfold strReplaceFirst
  rw [replaceFirstAux_of_not_contains pat.data rep.data s.data h]

theorem cleanText_of_clean (s : String)
    (h : ∀ pat ∈ special_strings, strContainsPat s pat = false) :
    cleanText s = s := by
  have h0 := h "&#39;" (by simp [special_strings])
  have h1 := h "&amp;" (by simp [special_strings])
  have h2 := h "sha " (by simp [special_strings])
  show strReplaceFirst (strReplaceFirst (strReplaceFirst s "&#39;" "'") "&amp;" "&")
    "sha " "Shaw " = s
  rw [strReplaceFirst_of_not_contains _ _ _ h0, strReplaceFirst_of_not_contains _ _ _ h1,
    strReplaceFirst_of_not_contains _ _ _ h2]

theorem cleanRow_of_rowClean (row : TranscriptRow) (h : rowClean row) :
    cleanRow row = row := by
  unfold cleanRow
  rw [cleanText_of_clean row.title (fun pat hp => (h pat hp).1),
    cleanText_of_clean row.transcript (fun pat hp => (h pat hp).2)]

theorem getVideoRecords_foldl (items : List Item) :
    ∀ acc : List VideoRecord,
      items.foldl
          (fun video_record_list raw_item =>
            if raw_item.idKind ≠ "youtube#video" then video_record_list
            else video_record_list ++ [mkVideoRecord raw_item])
          acc
        = acc ++ (items.filter (fun raw_item => raw_item.idKind == "youtube#video")).map
            mkVideoRecord := by
  induction items with
  | nil => intro acc; simp
  | cons raw_item rest ih =>
    intro acc
    simp only [List.foldl_cons]
    rw [ih]
    by_cases hk : raw_item.idKind = "youtube#video"
    · simp [hk, List.filter_cons]
    · simp [hk, List.filter_cons]

theorem getVideoRecords_eq_filter_map (items : List Item) :
    getVideoRecords items
      = (items.filter (fun raw_item => raw_item.idKind == "youtube#video")).map
          mkVideoRecord := by
  rw [getVideoRecords, getVideoRecords_foldl]
  simp

/-- A successful lister run returns the starting accumulator followed by the
records of the pages it consumed — a prefix of the page sequence. -/
theorem runLister_some_eq :
    ∀ (fuel : Nat) (pages : List Page) (acc res : List VideoRecord),
      runLister fuel pages acc = some res →
      ∃ k, res = acc ++ pagesRecords (pages.take k)
  | 0, _, _, _, h => by simp [runLister] at h
  | _ + 1, [], _, _, h => by simp [runLister] at h
  | fuel + 1, page :: rest, acc, res, h => by
    cases htok : page.nextPageToken with
    | none =>
      simp only [runLister, htok] at h
      obtain rfl := Option.some.inj h
      exact ⟨1, by simp [pagesRecords]⟩
    | some tok =>
      simp only [runLister, htok] at h
      obtain ⟨k, hk⟩ := runLister_some_eq fuel rest (acc ++ getVideoRecords page.items) res h
      exact ⟨k + 1, by simp [hk, pagesRecords, List.append_assoc]⟩

/-- The records of a prefix of the page list form a sublist of the records
of the whole page list. -/
theorem pagesRecords_take_sublist (pages : List Page) (k : Nat) :
    (pagesRecords (pages.take k)).Sublist (pagesRecords pages) := by
  have hsplit : pagesRecords (pages.take k) ++ pagesRecords (pages.drop k)
      = pagesRecords pages := by
    unfold pagesRecords
    rw [← List.flatMap_append, List.take_append_drop]
  have hsub := List.sublist_append_left (pagesRecords (pages.take k))
    (pagesRecords (pages.drop k))
  rwa [hsplit] at hsub

theorem getColumn_length (df : List TransformedRow) (column_name : String) :
    (getColumn df column_name).length = df.length := by
  simp [getColumn]

theorem embColumns_names (column_name : String) (arr : NDArr) :
    (embColumns column_name arr).map Prod.fst
      = (List.range arr.width).map
          (fun i => column_name ++ "_embedding-" ++ toString i) := by
  simp [embColumns, List.map_map]

theorem embColumns_length (column_name : String) (arr : NDArr) :
    (embColumns column_name arr).length = arr.width := by
  simp [embColumns]

theorem embColumns_col_length (column_name : String) (arr : NDArr)
    (col : String × List Float) (h : col ∈ embColumns column_name arr) :
    col.2.length = arr.rows.length := by
  obtain ⟨i, _, rfl⟩ := List.mem_map.1 h
  simp

theorem createTextEmbeddings_embCols (encode : List String → NDArr)
    (df : List TransformedRow) :
    (createTextEmbeddings encode df).embCols
      = embColumns "title" (encode (getColumn df "title"))
        ++ embColumns "transcript" (encode (getColumn df "transcript")) := by
  show ([] ++ embColumns "title" (encode (getColumn df "title")))
      ++ embColumns "transcript" (encode (getColumn df "transcript")) = _
  simp

/-! ## Claim theorems -/

/-- C6: the Transformer's replacements are literal substring matches,
case-sensitive and in the listed order: the title `"Shaw&#39;s channel"`
transforms to `"Shaw's channel"`, `"sha blog"` transforms to
`"Shaw blog"`, and text differing from a pattern only in letter case
(`"SHA BLOG"`, `"Sha&Amp; z"`) is left unchanged. -/
theorem c6_literal_replacements :
    handleSpecialStrings
        [{ video_id := "v1", datetime := "2024-01-01", title := "Shaw&#39;s channel",
           transcript := "x" },
         { video_id := "v2", datetime := "2024-01-02", title := "sha blog",
           transcript := "y" }]
      = [{ video_id := "v1", datetime := "2024-01-01", title := "Shaw's channel",
           transcript := "x" },
         { video_id := "v2", datetime := "2024-01-02", title := "Shaw blog",
           transcript := "y" }] ∧
    handleSpecialStrings
        [{ video_id := "v3", datetime := "2024-01-03", title := "SHA BLOG",
           transcript := "Sha&Amp; z" }]
      = [{ video_id := "v3", datetime := "2024-01-03", title := "SHA BLOG",
           transcript := "Sha&Amp; z" }] := by
  decide

/-- C1 fails as stated: `handleSpecialStrings` is not idempotent on every
input table, because polars `str.replace` rewrites only the first
occurrence of a pattern.  On the title `"&#39;&#39;"` one application
yields `"'&#39;"` and a second application yields `"''"`. -/
theorem c1_not_idempotent_counterexample :
    handleSpecialStrings (handleSpecialStrings
        [{ video_id := "v1", datetime := "2024-01-01", title := "&#39;&#39;",
           transcript := "n/a" }])
      ≠ handleSpecialStrings
          [{ video_id := "v1", datetime := "2024-01-01", title := "&#39;&#39;",
             transcript := "n/a" }] := by
  decide

/-- C1 (amended): `handleSpecialStrings` is idempotent on every table whose
once-transformed `title` and `transcript` cells are free of all the special
strings — applying it twice then equals applying it once.  (Unconditional
idempotence fails: a single `str.replace` rewrites only the first
occurrence, and the `&amp;`-to-`&` rewrite can reintroduce the earlier
pattern `&#39;`.) -/
theorem c1_idempotent_on_clean (df : List TranscriptRow)
    (h : ∀ row ∈ handleSpecialStrings df, rowClean row) :
    handleSpecialStrings (handleSpecialStrings df) = handleSpecialStrings df := by
  rw [handleSpecialStrings_eq_map (handleSpecialStrings df)]
  have hfix : ∀ row ∈ handleSpecialStrings df, cleanRow row = row :=
    fun row hrow => cleanRow_of_rowClean row (h row hrow)
  rw [List.map_congr_left hfix]
  simp

/-- Witness for C1 (amended) at a concrete already-clean table. -/
theorem c1_idempotent_on_clean_witness :
    handleSpecialStrings (handleSpecialStrings
        [{ video_id := "v1", datetime := "2024-01-01", title := "hello",
           transcript := "n/a" }])
      = handleSpecialStrings
          [{ video_id := "v1", datetime := "2024-01-01", title := "hello",
             transcript := "n/a" }] :=
  c1_idempotent_on_clean
    [{ video_id := "v1", datetime := "2024-01-01", title := "hello", transcript := "n/a" }]
    (by decide)

/-- C8: `getVideoRecords` keeps exactly the response items whose `id.kind`
is `"youtube#video"`: its output is the video-kind items, in order, turned
into records, and a record is in the output precisely when it comes from a
video-kind item of the page. -/
theorem c8_kind_filter (items : List Item) :
    getVideoRecords items
      = (items.filter (fun raw_item => raw_item.idKind == "youtube#video")).map
          mkVideoRecord ∧
    ∀ record : VideoRecord,
      record ∈ getVideoRecords items ↔
        ∃ raw_item ∈ items,
          raw_item.idKind = "youtube#video" ∧ record = mkVideoRecord raw_item := by
  refine ⟨getVideoRecords_eq_filter_map items, fun record => ?_⟩
  rw [getVideoRecords_eq_filter_map]
  simp only [List.mem_map, List.mem_filter, beq_iff_eq]
  constructor
  · rintro ⟨raw_item, ⟨hmem, hkind⟩, rfl⟩
    exact ⟨raw_item, hmem, hkind, rfl⟩
  · rintro ⟨raw_item, hmem, hkind, rfl⟩
    exact ⟨raw_item, ⟨hmem, hkind⟩, rfl⟩

/-- C9: `extractTranscriptText` joins the fragments' `text` fields, in
service order, with a single space separator (it agrees with
`String.intercalate " "` on the texts), and on the fragments
`[{text := "hello"}, {text := "world"}]` it returns `"hello world"`. -/
theorem c9_space_join :
    (∀ transcript : List Fragment,
      extractTranscriptText transcript
        = String.intercalate " " (transcript.map (fun fragment => fragment.text))) ∧
    extractTranscriptText [{ text := "hello" }, { text := "world" }] = "hello world" := by
  exact ⟨fun transcript => strJoin_eq_intercalate " " _, rfl⟩

/-- C3: for every row of the identity table, if the transcript service
call raises any error whatsoever, the fetched record keeps the row's
identity fields with the transcript set to exactly the sentinel `"n/a"`;
the error does not propagate and the batch covers every input row (the
output has one row per input row). -/
theorem c3_error_sentinel {ε : Type} (get_transcript : String → Except ε (List Fragment))
    (df : List VideoRecord) (i : Nat) (row : VideoRecord) (e : ε)
    (hrow : df[i]? = some row) (herr : get_transcript row.video_id = Except.error e) :
    (getVideoTranscripts get_transcript df)[i]?
        = some { video_id := row.video_id, datetime := row.datetime, title := row.title,
                 transcript := "n/a" } ∧
    (getVideoTranscripts get_transcript df).length = df.length := by
  constructor
  · simp [getVideoTranscripts, List.getElem?_map, hrow, fetchTranscriptText, herr]
  · exact getVideoTranscripts_length get_transcript df

/-- Witness for C3 at a service that always raises. -/
theorem c3_error_sentinel_witness :
    (getVideoTranscripts (fun _ => Except.error "CouldNotRetrieveTranscript")
        [{ video_id := "vid1", datetime := "2024-01-01", title := "t1" }])[0]?
        = some { video_id := "vid1", datetime := "2024-01-01", title := "t1",
                 transcript := "n/a" } ∧
    (getVideoTranscripts (fun _ => Except.error "CouldNotRetrieveTranscript")
        [{ video_id := "vid1", datetime := "2024-01-01", title := "t1" }]).length
      = ([{ video_id := "vid1", datetime := "2024-01-01", title := "t1" }] :
          List VideoRecord).length :=
  c3_error_sentinel (fun _ => Except.error "CouldNotRetrieveTranscript")
    [{ video_id := "vid1", datetime := "2024-01-01", title := "t1" }] 0
    { video_id := "vid1", datetime := "2024-01-01", title := "t1" }
    "CouldNotRetrieveTranscript" rfl rfl

/-- C10: `extractTranscriptText` is total and returns `""` on the empty
fragment list, so a video whose transcript call succeeds with zero
fragments is recorded with the empty transcript, which differs from the
failure sentinel `"n/a"`. -/
theorem c10_empty_transcript {ε : Type} (get_transcript : String → Except ε (List Fragment))
    (df : List VideoRecord) (i : Nat) (row : VideoRecord)
    (hrow : df[i]? = some row) (hok : get_transcript row.video_id = Except.ok []) :
    extractTranscriptText [] = "" ∧
    ((getVideoTranscripts get_transcript df)[i]?).map (fun r => r.transcript)
      = some "" ∧
    ("" : String) ≠ "n/a" := by
  refine ⟨rfl, ?_, by decide⟩
  simp [getVideoTranscripts, List.getElem?_map, hrow, fetchTranscriptText, hok,
    extractTranscriptText, strJoin]

/-- Witness for C10 at a service that succeeds with zero fragments. -/
theorem c10_empty_transcript_witness :
    extractTranscriptText [] = "" ∧
    ((getVideoTranscripts (fun _ => (Except.ok [] : Except String (List Fragment)))
        [{ video_id := "vid1", datetime := "2024-01-01", title := "t1" }])[0]?).map
        (fun r => r.transcript)
      = some "" ∧
    ("" : String) ≠ "n/a" :=
  c10_empty_transcript (fun _ => (Except.ok [] : Except String (List Fragment)))
    [{ video_id := "vid1", datetime := "2024-01-01", title := "t1" }] 0
    { video_id := "vid1", datetime := "2024-01-01", title := "t1" } rfl rfl

/-- C2: row order and `video_id` identity are preserved across the
artifacts: the transcript table has one row per identity row, the final
index table has one row per identity row, and at every position `i` the
transcript row and the final index row carry the same `video_id` as
identity row `i` (so 3 input records yield exactly 3 index rows, none
dropped or reordered). -/
theorem c2_row_order_preserved {ε : Type}
    (get_transcript : String → Except ε (List Fragment))
    (cast : String → Option Nat) (encode : List String → NDArr)
    (df : List VideoRecord) (i : Nat) :
    (getVideoTranscripts get_transcript df).length = df.length ∧
    (pipelineIndex get_transcript cast encode df).rows.length = df.length ∧
    ((getVideoTranscripts get_transcript df)[i]?).map (fun row => row.video_id)
      = (df[i]?).map (fun row => row.video_id) ∧
    ((pipelineIndex get_transcript cast encode df).rows[i]?).map
        (fun row => row.video_id)
      = (df[i]?).map (fun row => row.video_id) := by
  refine ⟨getVideoTranscripts_length get_transcript df, ?_, ?_, ?_⟩
  · rw [show (pipelineIndex get_transcript cast encode df).rows
        = setDatatypes cast (handleSpecialStrings (getVideoTranscripts get_transcript df))
        from rfl,
      handleSpecialStrings_eq_map]
    simp [setDatatypes, getVideoTranscripts]
  · cases hdf : df[i]? <;> simp [getVideoTranscripts, List.getElem?_map, hdf]
  · rw [show (pipelineIndex get_transcript cast encode df).rows
        = setDatatypes cast (handleSpecialStrings (getVideoTranscripts get_transcript df))
        from rfl,
      handleSpecialStrings_eq_map]
    cases hdf : df[i]? <;>
      simp [setDatatypes, getVideoTranscripts, List.getElem?_map, hdf, cleanRow]

/-- C4: pagination terminates on every mocked API returning a finite
sequence of pages one of which lacks a `nextPageToken`: within as many
loop iterations as there are pages the lister loop finishes with a result
(it stops at the first page whose response lacks the token and never runs
indefinitely). -/
theorem c4_pagination_terminates (pages : List Page) (acc : List VideoRecord)
    (fuel : Nat) (hfin : ∃ page ∈ pages, page.nextPageToken = none)
    (hfuel : pages.length ≤ fuel) :
    ∃ res, runLister fuel pages acc = some res := by
  induction pages generalizing acc fuel with
  | nil => simp at hfin
  | cons page rest ih =>
    obtain ⟨q, hq, hqt⟩ := hfin
    cases fuel with
    | zero => simp at hfuel
    | succ fuel =>
      cases htok : page.nextPageToken with
      | none => exact ⟨acc ++ getVideoRecords page.items, by simp [runLister, htok]⟩
      | some tok =>
        have hq' : q ∈ rest := by
          rcases List.mem_cons.1 hq with rfl | hmem
          · rw [hqt] at htok; cases htok
          · exact hmem
        have hlen : rest.length ≤ fuel := by
          simpa using Nat.succ_le_succ_iff.1 (by simpa using hfuel)
        obtain ⟨res, hres⟩ := ih (acc ++ getVideoRecords page.items) fuel ⟨q, hq', hqt⟩ hlen
        exact ⟨res, by simpa [runLister, htok] using hres⟩

/-- Witness for C4 at a concrete two-page mocked API. -/
theorem c4_pagination_terminates_witness :
    ∃ res,
      runLister 2
          [{ items := [{ idKind := "youtube#video", videoId := "a",
                         publishedAt := "2024-01-01", title := "t1" }],
             nextPageToken := some "tok1" },
           { items := [{ idKind := "youtube#video", videoId := "b",
                         publishedAt := "2024-01-02", title := "t2" }],
             nextPageToken := none }] []
        = some res :=
  c4_pagination_terminates
    [{ items := [{ idKind := "youtube#video", videoId := "a",
                   publishedAt := "2024-01-01", title := "t1" }],
       nextPageToken := some "tok1" },
     { items := [{ idKind := "youtube#video", videoId := "b",
                   publishedAt := "2024-01-02", title := "t2" }],
       nextPageToken := none }] [] 2
    ⟨{ items := [{ idKind := "youtube#video", videoId := "b",
                   publishedAt := "2024-01-02", title := "t2" }],
       nextPageToken := none }, by decide, rfl⟩
    (by decide)

/-- C5 fails as stated: the lister enforces neither non-emptiness nor
uniqueness of `video_id` — it copies `id.videoId` verbatim.  On a mocked
API page carrying two video items that both have the empty `videoId`, the
written table holds two rows with the same empty `video_id`. -/
theorem c5_unique_ids_counterexample :
    runLister 1 duplicateIdPage [] = some duplicateIdTable ∧
    ¬ ((duplicateIdTable.map (fun record => record.video_id)).Nodup ∧
        ∀ record ∈ duplicateIdTable, record.video_id ≠ "") := by
  decide

/-- C5 (amended): the lister preserves, but does not enforce, the property:
whenever the video-kind items of the mocked pages carry pairwise-distinct,
non-empty `videoId`s, every `video_id` in the written video-identity table
is non-empty and no two rows share one. -/
theorem c5_unique_ids_amended (fuel : Nat) (pages : List Page)
    (res : List VideoRecord) (hrun : runLister fuel pages [] = some res)
    (hnodup : (allVideoIds pages).Nodup)
    (hne : ∀ id ∈ allVideoIds pages, id ≠ "") :
    (res.map (fun record => record.video_id)).Nodup ∧
    ∀ record ∈ res, record.video_id ≠ "" := by
  obtain ⟨k, hk⟩ := runLister_some_eq fuel pages [] res hrun
  simp only [List.nil_append] at hk
  subst hk
  have hsub : ((pagesRecords (pages.take k)).map (fun record => record.video_id)).Sublist
      (allVideoIds pages) :=
    List.Sublist.map _ (pagesRecords_take_sublist pages k)
  refine ⟨List.Nodup.sublist hsub hnodup, fun record hmem => ?_⟩
  exact hne _ (hsub.subset (List.mem_map_of_mem _ hmem))

/-- Witness for C5 (amended) at a two-page API with distinct ids. -/
theorem c5_unique_ids_amended_witness :
    (([{ video_id := "a", datetime := "2024-01-01", title := "t1" },
       { video_id := "b", datetime := "2024-01-02", title := "t2" }] :
        List VideoRecord).map (fun record => record.video_id)).Nodup ∧
    ∀ record ∈ ([{ video_id := "a", datetime := "2024-01-01", title := "t1" },
                 { video_id := "b", datetime := "2024-01-02", title := "t2" }] :
        List VideoRecord), record.video_id ≠ "" :=
  c5_unique_ids_amended 2
    [{ items := [{ idKind := "youtube#video", videoId := "a",
                   publishedAt := "2024-01-01", title := "t1" }],
       nextPageToken := some "tok1" },
     { items := [{ idKind := "youtube#video", videoId := "b",
                   publishedAt := "2024-01-02", title := "t2" }],
       nextPageToken := none }]
    [{ video_id := "a", datetime := "2024-01-01", title := "t1" },
     { video_id := "b", datetime := "2024-01-02", title := "t2" }]
    (by decide) (by decide) (by decide)

/-- C7: for every input table and embedding width `d` returned by the
model, the Embedding Generator keeps the row count, appends per-dimension
columns named `<field>_embedding-<index>` with indices exactly `0` to
`d - 1` — the `title` columns before the `transcript` columns — for a
total of `2 * d` added columns, each as long as the table. -/
theorem c7_embedding_columns (encode : List String → NDArr)
    (df : List TransformedRow) (d : Nat)
    (henc : ∀ xs : List String,
      (encode xs).rows.length = xs.length ∧ (encode xs).width = d) :
    (createTextEmbeddings encode df).rows.length = df.length ∧
    (createTextEmbeddings encode df).embCols.map Prod.fst
      = (List.range d).map (fun i => "title_embedding-" ++ toString i)
        ++ (List.range d).map (fun i => "transcript_embedding-" ++ toString i) ∧
    (createTextEmbeddings encode df).embCols.length = 2 * d ∧
    ∀ col ∈ (createTextEmbeddings encode df).embCols, col.2.length = df.length := by
  obtain ⟨ht1, ht2⟩ := henc (getColumn df "title")
  obtain ⟨hr1, hr2⟩ := henc (getColumn df "transcript")
  refine ⟨rfl, ?_, ?_, ?_⟩
  · rw [createTextEmbeddings_embCols, List.map_append, embColumns_names,
      embColumns_names, ht2, hr2]
    congr 1
  · rw [createTextEmbeddings_embCols, List.length_append, embColumns_length,
      embColumns_length, ht2, hr2]
    omega
  · intro col hcol
    rw [createTextEmbeddings_embCols] at hcol
    rcases List.mem_append.1 hcol with h | h
    · rw [embColumns_col_length "title" _ col h, ht1, getColumn_length]
    · rw [embColumns_col_length "transcript" _ col h, hr1, getColumn_length]

/-- Witness for C7 at a width-1 mocked model and a one-row table. -/
theorem c7_embedding_columns_witness :
    (createTextEmbeddings
        (fun xs => { rows := xs.map (fun _ => [(0.5 : Float)]), width := 1 })
        [{ video_id := "v1", datetime := some 0, title := "t", transcript := "x" }]).rows.length
      = ([{ video_id := "v1", datetime := some 0, title := "t", transcript := "x" }] :
          List TransformedRow).length ∧
    (createTextEmbeddings
        (fun xs => { rows := xs.map (fun _ => [(0.5 : Float)]), width := 1 })
        [{ video_id := "v1", datetime := some 0, title := "t", transcript := "x" }]).embCols.map
        Prod.fst
      = (List.range 1).map (fun i => "title_embedding-" ++ toString i)
        ++ (List.range 1).map (fun i => "transcript_embedding-" ++ toString i) ∧
    (createTextEmbeddings
        (fun xs => { rows := xs.map (fun _ => [(0.5 : Float)]), width := 1 })
        [{ video_id := "v1", datetime := some 0, title := "t", transcript := "x" }]).embCols.length
      = 2 * 1 ∧
    ∀ col ∈ (createTextEmbeddings
        (fun xs => { rows := xs.map (fun _ => [(0.5 : Float)]), width := 1 })
        [{ video_id := "v1", datetime := some 0, title := "t", transcript := "x" }]).embCols,
      col.2.length
        = ([{ video_id := "v1", datetime := some 0, title := "t", transcript := "x" }] :
            List TransformedRow).length :=
  c7_embedding_columns
    (fun xs => { rows := xs.map (fun _ => [(0.5 : Float)]), width := 1 })
    [{ video_id := "v1", datetime := some 0, title := "t", transcript := "x" }] 1
    (fun xs => ⟨by simp, rfl⟩)

end DataPipeline
